import Mathlib

/-!
Verification of the vehicle monitoring system (`src/main.py`).
The Python source is shallowly embedded: floats and timestamps become `ℚ`,
status strings stay `String` (the code compares string literals such as
`'CRITICAL'`), stateful methods become explicit state-passing functions, and
the fallible inference path (`try`/`except`) returns `Except`.
-/

namespace VMS

/-! ## GasSensor (src/main.py, class `GasSensor`) -/

/-- Configuration slice of `CONFIG['gas_sensor']` used by the monitor.
`window` is `int(sample_rate * 1.0)`, the deque capacity. -/
structure GasConfig where
  window : ℕ
  warning_min : ℚ
  critical_min : ℚ
  confirmation_time : ℚ
deriving DecidableEq, Repr

/-- The reference configuration from `CONFIG['gas_sensor']`:
`sample_rate = 10` (so the window holds 10 samples), `warning_min = 200`,
`critical_min = 400`, `confirmation_time = 2.0`. -/
def gasCfgRef : GasConfig :=
  { window := 10, warning_min := 200, critical_min := 400, confirmation_time := 2 }

/-- Mutable state of a `GasSensor` instance (fields set in `__init__`). -/
structure GasState where
  current_value : ℚ
  filtered_value : ℚ
  status : String
  critical_start_time : Option ℚ
  readings : List ℚ
deriving DecidableEq, Repr

/-- `GasSensor.__init__`: `current_value = 0`, `filtered_value = 0`,
`status = 'SAFE'`, `critical_start_time = None`, empty deque. -/
def gasInit : GasState :=
  { current_value := 0, filtered_value := 0, status := "SAFE",
    critical_start_time := none, readings := [] }

/-- `GasSensor._determine_status(value)` at wall-clock time `now`.
Returns the status string together with the updated
`self.critical_start_time` (the only state it mutates; the `Logger` calls
have no effect on the result). -/
def determineStatus (cfg : GasConfig) (cst : Option ℚ) (value now : ℚ) :
    String × Option ℚ :=
  if cfg.critical_min ≤ value then
    let start := cst.getD now
    if cfg.confirmation_time ≤ now - start then ("CRITICAL", some start)
    else ("WARNING", some start)
  else if cfg.warning_min ≤ value then ("WARNING", none)
  else ("SAFE", none)

/-- `deque(maxlen = n)` keeps the last `n` appended elements. -/
def takeRight (n : ℕ) (xs : List ℚ) : List ℚ :=
  xs.drop (xs.length - n)

/-- `self.readings.append(raw_value)` on a `deque(maxlen = cfg.window)`. -/
def appendReading (cfg : GasConfig) (xs : List ℚ) (x : ℚ) : List ℚ :=
  takeRight cfg.window (xs ++ [x])

/-- `filtered = sum(self.readings) / len(self.readings) if self.readings
else raw_value`, evaluated after the append. -/
def filteredOf (readings : List ℚ) (raw : ℚ) : ℚ :=
  if readings = [] then raw else readings.sum / (readings.length : ℚ)

/-- One iteration of `GasSensor._read_loop` on raw sample `raw` read at
time `now`: append to the window, filter, classify, publish. -/
def readStep (cfg : GasConfig) (st : GasState) (now raw : ℚ) : GasState :=
  let rs := appendReading cfg st.readings raw
  let f := filteredOf rs raw
  let p := determineStatus cfg st.critical_start_time f now
  { current_value := raw, filtered_value := f, status := p.1,
    critical_start_time := p.2, readings := rs }

/-- State of the sensor after processing raw samples `raws 0, raws 1, …,
raws i` read at times `times 0, times 1, …, times i`. -/
def gstate (cfg : GasConfig) (st0 : GasState) (times raws : ℕ → ℚ) :
    ℕ → GasState
  | 0 => readStep cfg st0 (times 0) (raws 0)
  | i + 1 => readStep cfg (gstate cfg st0 times raws i) (times (i + 1)) (raws (i + 1))

/-- `GasSensor.get_reading()`. -/
def get_reading (st : GasState) : ℚ × ℚ × String :=
  (st.current_value, st.filtered_value, st.status)

/-- The sensor state seen by iteration `i` of the read loop, before sample
`i` is processed. -/
def gprev (cfg : GasConfig) (st0 : GasState) (times raws : ℕ → ℚ) :
    ℕ → GasState
  | 0 => st0
  | i + 1 => gstate cfg st0 times raws i

/-! Stream of `_determine_status` calls on successive filtered values, used
to state the confirmation invariant (C1): `dcst i` is
`self.critical_start_time` just before the `i`-th call, `dstatus i` the
`i`-th returned status, where the `i`-th call passes filtered value `v i`
at time `τ i`. -/

/-- `critical_start_time` before the `i`-th `_determine_status` call
(starting from the `__init__` value `None`). -/
def dcst (cfg : GasConfig) (τ v : ℕ → ℚ) : ℕ → Option ℚ
  | 0 => none
  | i + 1 => (determineStatus cfg (dcst cfg τ v i) (v i) (τ i)).2

/-- Status returned by the `i`-th `_determine_status` call. -/
def dstatus (cfg : GasConfig) (τ v : ℕ → ℚ) (i : ℕ) : String :=
  (determineStatus cfg (dcst cfg τ v i) (v i) (τ i)).1

/-! ## AIInferenceEngine (src/main.py, class `AIInferenceEngine`) -/

/-- Configuration slice of `CONFIG['ai']` used by the engine; `norm_ranges`
is the per-channel normalization table. -/
structure AIConfig where
  warning_min : ℚ
  critical_min : ℚ
  norm_ranges : String → Option (ℚ × ℚ)

/-- The per-channel normalization ranges of `CONFIG['ai']['norm_ranges']`. -/
def normRangesRef : List (String × (ℚ × ℚ)) :=
  [("rpm", (0, 6000)), ("speed", (0, 200)), ("coolant_temp", (0, 120)),
   ("throttle_pos", (0, 100)), ("intake_pressure", (0, 255)),
   ("engine_load", (0, 100))]

/-- The reference AI configuration from `CONFIG['ai']`:
`warning_min = 0.3`, `critical_min = 0.7`. -/
def aiCfgRef : AIConfig :=
  { warning_min := 3/10, critical_min := 7/10,
    norm_ranges := fun p => normRangesRef.lookup p }

/-- `AIInferenceEngine.normalize_value`: look the channel up in
`norm_ranges`, defaulting to `[0, 100]`; clamp the value into
`[min_val, max_val]`; if `max_val > min_val` map linearly onto `[0, 1]`,
otherwise return `0.0`. -/
def normalize_value (cfg : AIConfig) (value : ℚ) (param : String) : ℚ :=
  let r := (cfg.norm_ranges param).getD (0, 100)
  let v := max r.1 (min r.2 value)
  if r.1 < r.2 then (v - r.1) / (r.2 - r.1) else 0

/-- A value held in the OBD snapshot dictionary: a number, Python `None`
(read back as `0.0`), or a value on which `float()` raises. -/
inductive OBDVal
  | num (q : ℚ)
  | pynone
  | invalid
deriving DecidableEq, Repr

/-- The fixed feature order of `AIInferenceEngine.preprocess`. -/
def featureOrder : List String :=
  ["rpm", "speed", "coolant_temp", "throttle_pos", "intake_pressure",
   "engine_load"]

/-- `AIInferenceEngine.preprocess`: a channel missing from the snapshot or
holding `None` is read as `0.0` and normalized; a non-convertible value
makes `float()` raise, which `run_inference` catches. -/
def preprocess (cfg : AIConfig) (data : String → Option OBDVal) :
    Except Unit (List ℚ) :=
  featureOrder.mapM fun p =>
    match data p with
    | some (OBDVal.num q) => Except.ok (normalize_value cfg q p)
    | some OBDVal.pynone => Except.ok (normalize_value cfg 0 p)
    | some OBDVal.invalid => Except.error ()
    | none => Except.ok (normalize_value cfg 0 p)

/-- Mutable state of `AIInferenceEngine`. -/
structure AIState where
  latest_score : ℚ
  latest_status : String
  inference_count : ℕ
deriving DecidableEq, Repr

/-- `AIInferenceEngine.__init__`: `latest_score = 0.0`,
`latest_status = 'UNKNOWN'`, `inference_count = 0`. -/
def aiInit : AIState :=
  { latest_score := 0, latest_status := "UNKNOWN", inference_count := 0 }

/-- `AIInferenceEngine.run_inference`: normalize the snapshot, average the
absolute deviations from the `0.5` midpoint, double and clamp to `[0, 1]`,
add the sampled random perturbation `noise` (`random.uniform(-0.05, 0.05)`)
and clamp again, classify against the thresholds, store and return the
result. On an exception it returns `(0.0, 'ERROR')` and stores nothing. -/
def run_inference (cfg : AIConfig) (st : AIState)
    (data : String → Option OBDVal) (noise : ℚ) : (ℚ × String) × AIState :=
  match preprocess cfg data with
  | Except.error _ => ((0, "ERROR"), st)
  | Except.ok features =>
    let deviations := features.map fun f => |f - 1/2|
    let avg_deviation :=
      if deviations.length = 0 then 0
      else deviations.sum / (deviations.length : ℚ)
    let score0 := min (avg_deviation * 2) 1
    let score := max 0 (min 1 (score0 + noise))
    let status :=
      if cfg.critical_min ≤ score then "CRITICAL"
      else if cfg.warning_min ≤ score then "WARNING"
      else "NORMAL"
    ((score, status),
      { latest_score := score, latest_status := status,
        inference_count := st.inference_count + 1 })

/-- `AIInferenceEngine.get_latest_result`. -/
def get_latest_result (st : AIState) : ℚ × String :=
  (st.latest_score, st.latest_status)

/-- Sample times `0, 1, 2, 2, …` used by the C1 witness. -/
def tauW : ℕ → ℚ
  | 0 => 0
  | 1 => 1
  | _ => 2

/-! ## ValveController (src/main.py, class `ValveController`) -/

/-- State of `ValveController`: the logical flag `self.valve_open` together
with the GPIO output line, abstracted as the boolean open-command it is
driven with (`_set_gpio_state(valve_open)`; `active_high` only selects the
electrical polarity of that command). -/
structure ValveState where
  valve_open : Bool
  line : Bool
deriving DecidableEq, Repr

/-- `ValveController.__init__`: `self.valve_open = True` and the GPIO line
driven to the open state (`self._set_gpio_state(True)`). -/
def valveInit : ValveState := { valve_open := true, line := true }

/-- `ValveController.open_valve`. -/
def open_valve (st : ValveState) : ValveState :=
  if !st.valve_open then { valve_open := true, line := true } else st

/-- `ValveController.close_valve` (the reason string only affects logging). -/
def close_valve (st : ValveState) : ValveState :=
  if st.valve_open then { valve_open := false, line := false } else st

/-- `ValveController.emergency_shutoff`: `close_valve`, then after a short
delay a defensive re-assertion `self._set_gpio_state(False)`. -/
def emergency_shutoff (st : ValveState) : ValveState :=
  { close_valve st with line := false }

/-- `ValveController.cleanup`, the shutdown path invoked by
`VehicleMonitorSystem.stop`: it first calls `self.open_valve()` and only
then releases the GPIO pin with `GPIO.cleanup`. -/
def cleanup (st : ValveState) : ValveState :=
  open_valve st

/-! ## VehicleMonitorSystem control loop (src/main.py, `_main_loop`,
`_check_gas_safety`, `_run_ai_inference`, `_display_status`) -/

/-- Observable actions of the main loop: a `_check_gas_safety` call, an
`emergency_shutoff` invocation, an `ai_engine.run_inference` call, and a
`_display_status` report to the display sink. -/
inductive Ev
  | gasCheck
  | shutoff
  | aiRun
  | display
deriving DecidableEq, Repr

/-- Inputs one loop iteration reads from the environment: `time.time()`,
the status currently published by the gas sensor thread, and whether
`obd.get_latest_data()` returned a snapshot carrying a `timestamp`. -/
structure TickIn where
  time : ℚ
  gasStatus : String
  obdReady : Bool
deriving DecidableEq, Repr

/-- Control-loop state: `self.running`, `self.emergency_shutdown`, the valve
owned by the system, and the `last_*` scheduling bookkeeping of
`_main_loop`. -/
structure LoopState where
  running : Bool
  emergency_shutdown : Bool
  valve : ValveState
  last_gas_check : ℚ
  last_ai_check : ℚ
  last_display : ℚ
deriving DecidableEq, Repr

/-- Loop state at `_main_loop` entry: `running = True`,
`emergency_shutdown = False`, valve as initialized, `last_* = 0`. -/
def loopInit : LoopState :=
  { running := true, emergency_shutdown := false, valve := valveInit,
    last_gas_check := 0, last_ai_check := 0, last_display := 0 }

/-- `VehicleMonitorSystem._check_gas_safety`: on a CRITICAL reading with
`auto_shutoff` enabled and no emergency latched yet, invoke
`valve.emergency_shutoff()` and set `emergency_shutdown`. -/
def checkGasSafety (auto : Bool) (st : LoopState) (gas : String) :
    LoopState × List Ev :=
  if gas = "CRITICAL" ∧ auto = true then
    if st.emergency_shutdown = false then
      ({ st with valve := emergency_shutoff st.valve,
                 emergency_shutdown := true }, [Ev.gasCheck, Ev.shutoff])
    else (st, [Ev.gasCheck])
  else (st, [Ev.gasCheck])

/-- Priority-1 sub-task of the loop body: gas safety check, gated on its
100 ms interval. -/
def gasStage (auto : Bool) (st : LoopState) (inp : TickIn) :
    LoopState × List Ev :=
  if 1/10 ≤ inp.time - st.last_gas_check then
    let p := checkGasSafety auto st inp.gasStatus
    ({ p.1 with last_gas_check := inp.time }, p.2)
  else (st, [])

/-- Priority-2 sub-task: AI inference (`_run_ai_inference`), gated on its
500 ms interval; `run_inference` is invoked only when the OBD snapshot has a
timestamp. -/
def aiStage (st : LoopState) (inp : TickIn) : LoopState × List Ev :=
  if 1/2 ≤ inp.time - st.last_ai_check then
    ({ st with last_ai_check := inp.time },
      if inp.obdReady then [Ev.aiRun] else [])
  else (st, [])

/-- Priority-3 sub-task: status report (`_display_status`), gated on its
2000 ms interval. -/
def displayStage (st : LoopState) (inp : TickIn) : LoopState × List Ev :=
  if 2 ≤ inp.time - st.last_display then
    ({ st with last_display := inp.time }, [Ev.display])
  else (st, [])

/-- One pass of the `while` body of `_main_loop`: the three sub-tasks in
strict priority order. -/
def tick (auto : Bool) (st : LoopState) (inp : TickIn) :
    LoopState × List Ev :=
  let p := gasStage auto st inp
  let q := aiStage p.1 inp
  let r := displayStage q.1 inp
  (r.1, p.2 ++ q.2 ++ r.2)

/-- `_main_loop`: iterate the loop body `while self.running and not
self.emergency_shutdown`, returning the flattened event log and the state
in which the loop terminated. -/
def mainLoop (auto : Bool) (st : LoopState) :
    List TickIn → List Ev × LoopState
  | [] => ([], st)
  | inp :: rest =>
    if st.running = true ∧ st.emergency_shutdown = false then
      let p := tick auto st inp
      let q := mainLoop auto p.1 rest
      (p.2 ++ q.1, q.2)
    else ([], st)

/-- Inputs of the C3 counterexample run: a CRITICAL gas reading at time 100
(all three sub-tasks due), then a tick at time 103, when a status report
would again be due (103 - 100 ≥ 2). -/
def c3Inputs : List TickIn :=
  [{ time := 100, gasStatus := "CRITICAL", obdReady := false },
   { time := 103, gasStatus := "SAFE", obdReady := false }]

/-- A loop state in which the emergency has just been latched. -/
def emergencyLatchedState : LoopState :=
  { running := true, emergency_shutdown := true,
    valve := emergency_shutoff valveInit,
    last_gas_check := 100, last_ai_check := 100, last_display := 100 }

/-- Inputs of the C4 witness run: two consecutive CRITICAL readings. -/
def c4Inputs : List TickIn :=
  [{ time := 100, gasStatus := "CRITICAL", obdReady := false },
   { time := 101, gasStatus := "CRITICAL", obdReady := false }]

/-- A snapshot whose `rpm` entry cannot be converted by `float()`. -/
def badSnapshot : String → Option OBDVal :=
  fun p => if p = "rpm" then some OBDVal.invalid else none

/-- Gas configuration of the C5 counterexample: the confirmation time
(0.1 s) is positive, but shorter than the window span (0.9 s at 10 Hz). -/
def gasCfgCex : GasConfig :=
  { window := 10, warning_min := 200, critical_min := 400,
    confirmation_time := 1/10 }

/-- C5 counterexample samples: a single spike of 1000, all later samples
0. -/
def rawsCex : ℕ → ℚ := fun i => if i = 0 then 1000 else 0

/-- The 10 Hz sample cadence of the gas read loop. -/
def timesCex : ℕ → ℚ := fun i => (i : ℚ) / 10

/-- C5 witness samples: a huge spike of 100000 then clean zeros. -/
def rawsSpikeW : ℕ → ℚ := fun i => if i = 0 then 100000 else 0

end VMS

namespace VMS

/-! ## Supporting lemmas for the gas state machine -/

/-- The `critical_start_time` left behind by `_determine_status`: set to the
episode start (the existing one, or `now` when a new episode begins) while
the value is at or above `critical_min`, cleared otherwise. -/
theorem determineStatus_snd (cfg : GasConfig) (cst : Option ℚ) (value now : ℚ) :
    (determineStatus cfg cst value now).2 =
      if cfg.critical_min ≤ value then some (cst.getD now) else none := by
  unfold determineStatus
  by_cases hc : cfg.critical_min ≤ value
  · simp only [hc, if_pos]
    by_cases he : cfg.confirmation_time ≤ now - cst.getD now <;> simp [he]
  · simp only [hc, if_neg, not_false_iff]
    by_cases hw : cfg.warning_min ≤ value <;> simp [hw]

/-- `_determine_status` returns `'CRITICAL'` exactly when the value is at or
above `critical_min` and the recorded episode has lasted at least
`confirmation_time`. -/
theorem determineStatus_fst_critical (cfg : GasConfig) (cst : Option ℚ)
    (value now : ℚ) :
    (determineStatus cfg cst value now).1 = "CRITICAL" ↔
      cfg.critical_min ≤ value ∧
        cfg.confirmation_time ≤ now - cst.getD now := by
  unfold determineStatus
  by_cases hc : cfg.critical_min ≤ value
  · simp only [hc, if_pos, true_and]
    by_cases he : cfg.confirmation_time ≤ now - cst.getD now <;> simp [he]
  · simp only [hc, if_neg, not_false_iff, false_and, iff_false]
    by_cases hw : cfg.warning_min ≤ value <;> simp [hw]

/-- Whenever `critical_start_time` is set (`some t0`), the filtered values
seen since some index `j < i` with `τ j = t0` have all been at or above
`critical_min`: the episode start recorded in the state is the start of a
contiguous at-or-above-critical run. -/
theorem dcst_run (cfg : GasConfig) (τ v : ℕ → ℚ) :
    ∀ i t0, dcst cfg τ v i = some t0 →
      ∃ j, j < i ∧ τ j = t0 ∧ ∀ k, j ≤ k → k < i → cfg.critical_min ≤ v k := by
  intro i
  induction i with
  | zero => intro t0 h; simp [dcst] at h
  | succ i ih =>
    intro t0 h
    rw [dcst, determineStatus_snd] at h
    by_cases hc : cfg.critical_min ≤ v i
    · simp only [hc, if_pos, Option.some.injEq] at h
      cases hd : dcst cfg τ v i with
      | none =>
        refine ⟨i, Nat.lt_succ_self i, ?_, ?_⟩
        · rw [hd] at h; simpa using h
        · intro k hk1 hk2
          have hki : k = i := by omega
          subst hki; exact hc
      | some s =>
        rw [hd] at h
        simp only [Option.getD_some] at h
        obtain ⟨j, hj1, hj2, hj3⟩ := ih s hd
        refine ⟨j, Nat.lt_succ_of_lt hj1, by rw [hj2, h], ?_⟩
        intro k hk1 hk2
        rcases Nat.lt_succ_iff_lt_or_eq.mp hk2 with hk | hk
        · exact hj3 k hk1 hk
        · subst hk; exact hc
    · simp [hc] at h

/-! ### Window lemmas for the single-spike analysis -/

/-- Projection of `readStep`: the published window. -/
theorem readStep_readings (cfg : GasConfig) (st : GasState) (now raw : ℚ) :
    (readStep cfg st now raw).readings = appendReading cfg st.readings raw := rfl

/-- Projection of `readStep`: the published status. -/
theorem readStep_status (cfg : GasConfig) (st : GasState) (now raw : ℚ) :
    (readStep cfg st now raw).status =
      (determineStatus cfg st.critical_start_time
        (filteredOf (appendReading cfg st.readings raw) raw) now).1 := rfl

/-- Projection of `readStep`: the episode tracking. -/
theorem readStep_cst (cfg : GasConfig) (st : GasState) (now raw : ℚ) :
    (readStep cfg st now raw).critical_start_time =
      (determineStatus cfg st.critical_start_time
        (filteredOf (appendReading cfg st.readings raw) raw) now).2 := rfl

/-- Each `gstate` is one `readStep` applied to the preceding state. -/
theorem gstate_eq_readStep (cfg : GasConfig) (st0 : GasState)
    (times raws : ℕ → ℚ) (i : ℕ) :
    gstate cfg st0 times raws i =
      readStep cfg (gprev cfg st0 times raws i) (times i) (raws i) := by
  cases i <;> rfl

/-- A `deque(maxlen = n)` holding the tail of a list ignores any prefix
that is followed by at least `n` elements. -/
theorem takeRight_append_left (n : ℕ) (P R : List ℚ) (h : n ≤ R.length) :
    takeRight n (P ++ R) = takeRight n R := by
  unfold takeRight
  rw [List.length_append]
  have harith : P.length + R.length - n = P.length + (R.length - n) := by omega
  rw [harith, List.drop_append]

/-- Truncating to the last `n` elements before appending more is the same
as truncating once at the end. -/
theorem takeRight_append_takeRight (n : ℕ) (xs ys : List ℚ) :
    takeRight n (takeRight n xs ++ ys) = takeRight n (xs ++ ys) := by
  by_cases h : xs.length ≤ n
  · have hxs : takeRight n xs = xs := by
      unfold takeRight
      rw [Nat.sub_eq_zero_of_le h, List.drop_zero]
    rw [hxs]
  · push_neg at h
    have hsub : takeRight n (List.take (xs.length - n) xs ++
        (List.drop (xs.length - n) xs ++ ys)) =
        takeRight n (List.drop (xs.length - n) xs ++ ys) :=
      takeRight_append_left n _ _ (by
        rw [List.length_append, List.length_drop]
        omega)
    calc takeRight n (takeRight n xs ++ ys)
        = takeRight n (List.drop (xs.length - n) xs ++ ys) := rfl
      _ = takeRight n (List.take (xs.length - n) xs ++
            (List.drop (xs.length - n) xs ++ ys)) := hsub.symm
      _ = takeRight n (xs ++ ys) := by
            rw [← List.append_assoc, List.take_append_drop]

/-- The window after samples `0 … i` is the `window`-truncated tail of the
initial contents followed by all samples processed so far. -/
theorem gstate_readings (cfg : GasConfig) (st0 : GasState)
    (times raws : ℕ → ℚ) :
    ∀ i, (gstate cfg st0 times raws i).readings =
      takeRight cfg.window (st0.readings ++ (List.range (i + 1)).map raws) := by
  intro i
  induction i with
  | zero =>
    rw [gstate_eq_readStep, readStep_readings]
    simp [appendReading, gprev, List.range_succ]
  | succ i ih =>
    rw [gstate_eq_readStep, readStep_readings]
    have hgp : gprev cfg st0 times raws (i + 1) =
        gstate cfg st0 times raws i := rfl
    have hr : List.range (i + 1 + 1) = List.range (i + 1) ++ [i + 1] :=
      List.range_succ _
    rw [hgp, appendReading, ih, takeRight_append_takeRight, hr,
      List.map_append, ← List.append_assoc]
    simp

/-- A nonempty list of values all below `c` sums to less than
`length · c`. -/
theorem sum_lt_of_forall_lt (c : ℚ) :
    ∀ xs : List ℚ, xs ≠ [] → (∀ x ∈ xs, x < c) →
      xs.sum < (xs.length : ℚ) * c := by
  intro xs
  induction xs with
  | nil => intro h _; exact absurd rfl h
  | cons x xs ih =>
    intro _ hall
    rw [List.sum_cons, List.length_cons]
    by_cases hxs : xs = []
    · subst hxs
      simpa using hall x (by simp)
    · have hx : x < c := hall x (by simp)
      have hs := ih hxs fun z hz => hall z (by simp [hz])
      push_cast
      linarith

/-- The moving-average output stays below any bound that dominates the raw
sample and every window element. -/
theorem filteredOf_lt (xs : List ℚ) (raw c : ℚ) (hraw : raw < c)
    (hall : ∀ x ∈ xs, x < c) : filteredOf xs raw < c := by
  unfold filteredOf
  by_cases hxs : xs = []
  · rw [if_pos hxs]; exact hraw
  · rw [if_neg hxs]
    have h0 : 0 < xs.length := List.length_pos.mpr hxs
    have h0q : (0 : ℚ) < (xs.length : ℚ) := by exact_mod_cast h0
    rw [div_lt_iff₀ h0q]
    have hsum := sum_lt_of_forall_lt c xs hxs hall
    linarith

/-- On the arithmetic sample cadence starting at `t0`, any recorded episode
start lies at or after `t0`. -/
theorem gprev_cst_ge (cfg : GasConfig) (st0 : GasState) (t0 dt : ℚ)
    (times raws : ℕ → ℚ) (hcst : st0.critical_start_time = none)
    (hdt : 0 ≤ dt) (htimes : ∀ k, times k = t0 + (k : ℚ) * dt) :
    ∀ i s, (gprev cfg st0 times raws i).critical_start_time = some s →
      t0 ≤ s := by
  intro i
  induction i with
  | zero =>
    intro s hs
    rw [show gprev cfg st0 times raws 0 = st0 from rfl, hcst] at hs
    cases hs
  | succ i ih =>
    intro s hs
    rw [show gprev cfg st0 times raws (i + 1) = gstate cfg st0 times raws i
        from rfl, gstate_eq_readStep, readStep_cst, determineStatus_snd] at hs
    by_cases hc : cfg.critical_min ≤
        filteredOf (appendReading cfg (gprev cfg st0 times raws i).readings
          (raws i)) (raws i)
    · rw [if_pos hc] at hs
      injection hs with hs
      cases hp : (gprev cfg st0 times raws i).critical_start_time with
      | none =>
        rw [hp] at hs
        simp only [Option.getD_none] at hs
        rw [← hs, htimes i]
        have hnn : 0 ≤ (i : ℚ) * dt := mul_nonneg (Nat.cast_nonneg i) hdt
        linarith
      | some s0 =>
        rw [hp] at hs
        simp only [Option.getD_some] at hs
        rw [← hs]
        exact ih s0 hp
    · rw [if_neg hc] at hs; cases hs

/-- C9: before any raw gas sample has been processed, `GasSensor.get_reading`
returns `(0, 0, 'SAFE')`: the freshly initialized monitor reports status SAFE
with zero raw and filtered values. -/
theorem gas_reading_initial : get_reading gasInit = (0, 0, "SAFE") := rfl

/-- C1: the gas monitor returns CRITICAL at step `i` only if there is a
contiguous run of filtered values `≥ critical_min` from some earlier step
`j < i` through `i` whose duration `τ i - τ j` is at least
`confirmation_time`; in particular (given `confirmation_time > 0`) CRITICAL
is never produced by a single instantaneous reading. -/
theorem gas_critical_requires_sustained (cfg : GasConfig) (τ v : ℕ → ℚ)
    (i : ℕ) (hconf : 0 < cfg.confirmation_time)
    (h : dstatus cfg τ v i = "CRITICAL") :
    ∃ j, j < i ∧ (∀ k, j ≤ k → k ≤ i → cfg.critical_min ≤ v k) ∧
      cfg.confirmation_time ≤ τ i - τ j := by
  rw [dstatus, determineStatus_fst_critical] at h
  obtain ⟨hc, he⟩ := h
  cases hd : dcst cfg τ v i with
  | none =>
    exfalso
    rw [hd] at he
    simp only [Option.getD_none, sub_self] at he
    exact absurd (lt_of_lt_of_le hconf he) (lt_irrefl 0)
  | some s =>
    rw [hd] at he
    simp only [Option.getD_some] at he
    obtain ⟨j, hj1, hj2, hj3⟩ := dcst_run cfg τ v i s hd
    refine ⟨j, hj1, ?_, by rw [hj2]; exact he⟩
    intro k hk1 hk2
    rcases Nat.lt_or_ge k i with hk | hk
    · exact hj3 k hk1 hk
    · have hki : k = i := by omega
      subst hki; exact hc

/-! ### Loop lemmas -/

/-- Once `emergency_shutdown` is set the `while` condition of `_main_loop`
fails, so the loop performs no further iterations and leaves no trace. -/
theorem mainLoop_of_emergency (auto : Bool) (st : LoopState)
    (inputs : List TickIn) (h : st.emergency_shutdown = true) :
    mainLoop auto st inputs = ([], st) := by
  cases inputs with
  | nil => rfl
  | cons inp rest => simp [mainLoop, h]

/-- With `running` cleared the loop likewise performs no iterations. -/
theorem mainLoop_not_running (auto : Bool) (st : LoopState)
    (inputs : List TickIn) (h : st.running = false) :
    mainLoop auto st inputs = ([], st) := by
  cases inputs with
  | nil => rfl
  | cons inp rest => simp [mainLoop, h]

/-- Unfolding of one live loop iteration. -/
theorem mainLoop_cons (auto : Bool) (st : LoopState) (inp : TickIn)
    (rest : List TickIn) (hr : st.running = true)
    (h : st.emergency_shutdown = false) :
    mainLoop auto st (inp :: rest) =
      ((tick auto st inp).2 ++ (mainLoop auto (tick auto st inp).1 rest).1,
        (mainLoop auto (tick auto st inp).1 rest).2) := by
  simp [mainLoop, hr, h]

/-- After `emergency_shutoff` the valve is closed and its line driven
closed, whatever state it was in. -/
theorem emergency_shutoff_closed (v : ValveState) :
    (emergency_shutoff v).valve_open = false ∧
      (emergency_shutoff v).line = false := by
  unfold emergency_shutoff close_valve
  cases hv : v.valve_open <;> simp [hv]

/-- The two outcomes of `_check_gas_safety` when no emergency is latched:
either nothing happens, or the shutoff fires and latches the flag. -/
theorem checkGasSafety_cases (auto : Bool) (st : LoopState) (gas : String)
    (h : st.emergency_shutdown = false) :
    checkGasSafety auto st gas = (st, [Ev.gasCheck]) ∨
      checkGasSafety auto st gas =
        ({ st with valve := emergency_shutoff st.valve,
                   emergency_shutdown := true }, [Ev.gasCheck, Ev.shutoff]) := by
  unfold checkGasSafety
  by_cases hc : gas = "CRITICAL" ∧ auto = true
  · rw [if_pos hc, if_pos h]; right; rfl
  · rw [if_neg hc]; left; rfl

/-- `aiStage` touches only `last_ai_check` and never emits a shutoff. -/
theorem aiStage_spec (st : LoopState) (inp : TickIn) :
    (aiStage st inp).1.emergency_shutdown = st.emergency_shutdown ∧
      (aiStage st inp).1.valve = st.valve ∧
      (aiStage st inp).2.count Ev.shutoff = 0 := by
  unfold aiStage
  split
  · refine ⟨rfl, rfl, ?_⟩
    cases inp.obdReady <;> simp
  · exact ⟨rfl, rfl, rfl⟩

/-- `displayStage` touches only `last_display` and never emits a shutoff. -/
theorem displayStage_spec (st : LoopState) (inp : TickIn) :
    (displayStage st inp).1.emergency_shutdown = st.emergency_shutdown ∧
      (displayStage st inp).1.valve = st.valve ∧
      (displayStage st inp).2.count Ev.shutoff = 0 := by
  unfold displayStage
  split
  · exact ⟨rfl, rfl, by simp⟩
  · exact ⟨rfl, rfl, rfl⟩

/-- From a state with no emergency latched, one loop pass either leaves the
flag clear, the valve untouched and emits no shutoff, or it latches the
emergency, emits exactly one shutoff and leaves the valve closed with the
line driven closed. -/
theorem tick_cases (auto : Bool) (st : LoopState) (inp : TickIn)
    (h : st.emergency_shutdown = false) :
    ((tick auto st inp).1.emergency_shutdown = false ∧
      (tick auto st inp).1.valve = st.valve ∧
      (tick auto st inp).2.count Ev.shutoff = 0) ∨
    ((tick auto st inp).1.emergency_shutdown = true ∧
      (tick auto st inp).2.count Ev.shutoff = 1 ∧
      (tick auto st inp).1.valve.valve_open = false ∧
      (tick auto st inp).1.valve.line = false) := by
  obtain ⟨ha1, ha2, ha3⟩ := aiStage_spec (gasStage auto st inp).1 inp
  obtain ⟨hd1, hd2, hd3⟩ :=
    displayStage_spec (aiStage (gasStage auto st inp).1 inp).1 inp
  have hcount : (tick auto st inp).2.count Ev.shutoff =
      (gasStage auto st inp).2.count Ev.shutoff := by
    simp [tick, List.count_append, ha3, hd3]
  have hem : (tick auto st inp).1.emergency_shutdown =
      (gasStage auto st inp).1.emergency_shutdown := by
    simp [tick, hd1, ha1]
  have hva : (tick auto st inp).1.valve = (gasStage auto st inp).1.valve := by
    simp [tick, hd2, ha2]
  rw [hcount, hem, hva]
  unfold gasStage
  split
  · rcases checkGasSafety_cases auto st inp.gasStatus h with hc | hc <;> rw [hc]
    · left; exact ⟨h, rfl, by simp⟩
    · right
      obtain ⟨hvo, hvl⟩ := emergency_shutoff_closed st.valve
      exact ⟨rfl, by simp, hvo, hvl⟩
  · left; exact ⟨h, rfl, rfl⟩

/-- C2: the claim that the CLOSED valve state is latched across shutdown is
contradicted by the code: after an emergency shutoff has driven the valve
and its GPIO line to CLOSED, the shutdown sequence
`VehicleMonitorSystem.stop → ValveController.cleanup` calls `open_valve()`,
re-opening the valve and driving the line back to OPEN before the pin is
released. -/
theorem valve_cleanup_reopens :
    (emergency_shutoff valveInit).valve_open = false ∧
    (emergency_shutoff valveInit).line = false ∧
    (cleanup (emergency_shutoff valveInit)).valve_open = true ∧
    (cleanup (emergency_shutoff valveInit)).line = true := by
  refine ⟨rfl, rfl, rfl, rfl⟩

/-- C3 counterexample: in the tick that sets `emergency_shutdown` the loop
still reports status once, but afterwards the loop produces nothing at all —
the second tick, at which a display report is due, emits no `Ev.display` —
refuting the claim that status reporting to the display sink continues for
the remainder of the run. -/
theorem loop_no_display_after_emergency_cex :
    (mainLoop true loopInit c3Inputs).2.emergency_shutdown = true ∧
      (mainLoop true loopInit c3Inputs).1 =
        [Ev.gasCheck, Ev.shutoff, Ev.display] := by
  norm_num [mainLoop, tick, gasStage, aiStage, displayStage, checkGasSafety,
    loopInit, valveInit, emergency_shutoff, close_valve, c3Inputs]

/-- C3 (amended): once `emergency_shutdown` is set, the main loop does not
merely stop gas and AI decisioning — its `while` condition fails, so it
performs no further iterations of any kind: no gas checks, no AI inference,
and no further status reports to the display sink; the loop state is left
untouched for the orderly-shutdown phase. -/
theorem loop_halts_after_emergency (auto : Bool) (st : LoopState)
    (inputs : List TickIn) (h : st.emergency_shutdown = true) :
    mainLoop auto st inputs = ([], st) :=
  mainLoop_of_emergency auto st inputs h

/-- Witness for the amended C3: from a latched-emergency state a further
tick (with a display report due) produces no events and no state change. -/
theorem loop_halts_after_emergency_witness :
    mainLoop true emergencyLatchedState
        [{ time := 103, gasStatus := "SAFE", obdReady := false }] =
      ([], emergencyLatchedState) :=
  loop_halts_after_emergency true emergencyLatchedState
    [{ time := 103, gasStatus := "SAFE", obdReady := false }] rfl

/-- C4: starting from a state with no emergency latched, a complete run of
the main loop invokes `emergency_shutoff` at most once, and whenever it was
invoked the run ends with the emergency flag still set and the valve CLOSED
with its line driven closed (no later tick re-opens or re-triggers it). -/
theorem loop_shutoff_at_most_once (auto : Bool) (st0 : LoopState)
    (inputs : List TickIn) (h : st0.emergency_shutdown = false) :
    ((mainLoop auto st0 inputs).1.count Ev.shutoff ≤ 1) ∧
      (Ev.shutoff ∈ (mainLoop auto st0 inputs).1 →
        (mainLoop auto st0 inputs).2.emergency_shutdown = true ∧
        (mainLoop auto st0 inputs).2.valve.valve_open = false ∧
        (mainLoop auto st0 inputs).2.valve.line = false) := by
  induction inputs generalizing st0 with
  | nil => simp [mainLoop]
  | cons inp rest ih =>
    by_cases hr : st0.running = true
    · rw [mainLoop_cons auto st0 inp rest hr h]
      rcases tick_cases auto st0 inp h with
        ⟨h1, _h2, h3⟩ | ⟨h1, h2, h3, h4⟩
      · obtain ⟨ihc, ihm⟩ := ih (tick auto st0 inp).1 h1
        refine ⟨?_, fun hmem => ?_⟩
        · simpa [List.count_append, h3] using ihc
        · have hmem2 : Ev.shutoff ∈ (mainLoop auto (tick auto st0 inp).1 rest).1 := by
            rcases List.mem_append.mp hmem with hm | hm
            · exact absurd (List.count_pos_iff.mpr hm) (by simp [h3])
            · exact hm
          exact ihm hmem2
      · rw [mainLoop_of_emergency auto _ rest h1]
        refine ⟨by simp [List.count_append, h2], fun _hmem => ⟨h1, h3, h4⟩⟩
    · rw [mainLoop_not_running auto st0 _ (by simpa using hr)]
      simp

/-- Witness for C4: on a concrete run with two CRITICAL readings the shutoff
fires at most once and latches the valve closed. -/
theorem loop_shutoff_at_most_once_witness :
    ((mainLoop true loopInit c4Inputs).1.count Ev.shutoff ≤ 1) ∧
      (Ev.shutoff ∈ (mainLoop true loopInit c4Inputs).1 →
        (mainLoop true loopInit c4Inputs).2.emergency_shutdown = true ∧
        (mainLoop true loopInit c4Inputs).2.valve.valve_open = false ∧
        (mainLoop true loopInit c4Inputs).2.valve.line = false) :=
  loop_shutoff_at_most_once true loopInit c4Inputs rfl

/-- Witness for C1: with the reference configuration, filtered values
constantly `450` at times `0, 1, 2` produce CRITICAL at step 2, and the
theorem yields the sustained run behind it. -/
theorem gas_critical_requires_sustained_witness :
    ∃ j, j < 2 ∧
      (∀ k, j ≤ k → k ≤ 2 → gasCfgRef.critical_min ≤ (fun _ : ℕ => (450 : ℚ)) k) ∧
      gasCfgRef.confirmation_time ≤ tauW 2 - tauW j :=
  gas_critical_requires_sustained gasCfgRef tauW (fun _ => 450) 2
    (by norm_num [gasCfgRef])
    (by norm_num [dstatus, dcst, determineStatus, gasCfgRef, tauW])

/-- C6: `run_inference` always returns a score in the closed interval
`[0, 1]`, and the returned `(score, status)` pair is a function of the
snapshot and the sampled noise alone (a fixed random seed fixes the noise):
re-running on the same snapshot and noise, from whatever internal state any
earlier run left behind, returns the identical pair. -/
theorem run_inference_contract (cfg : AIConfig) (st : AIState)
    (data : String → Option OBDVal) (noise : ℚ) :
    (0 ≤ ((run_inference cfg st data noise).1).1 ∧
      ((run_inference cfg st data noise).1).1 ≤ 1) ∧
    ∀ st2 : AIState,
      (run_inference cfg st2 data noise).1 =
        (run_inference cfg st data noise).1 := by
  cases hp : preprocess cfg data with
  | error e =>
    refine ⟨⟨?_, ?_⟩, fun st2 => ?_⟩ <;> simp [run_inference, hp]
  | ok features =>
    refine ⟨⟨?_, ?_⟩, fun st2 => ?_⟩
    · simp [run_inference, hp]
    · simp only [run_inference, hp]
      exact max_le (by norm_num) (min_le_left 1 _)
    · simp [run_inference, hp]

/-- C7: with a configured channel range `[mn, mx]`, `normalize_value`
clamps and then maps linearly: for `mn < mx` it equals
`(clamp(value) - mn) / (mx - mn)`, is exactly `0` for `value ≤ mn`, exactly
`1` for `value ≥ mx`, leaves the clamp of an in-range value as the identity
linear image, and always lands in `[0, 1]`; for a degenerate range
(`mn = mx`) it returns exactly `0`. -/
theorem normalize_value_spec (cfg : AIConfig) (value : ℚ) (param : String)
    (mn mx : ℚ) (hr : cfg.norm_ranges param = some (mn, mx)) :
    ((mn < mx) →
      (normalize_value cfg value param = (max mn (min mx value) - mn) / (mx - mn) ∧
        (value ≤ mn → normalize_value cfg value param = 0) ∧
        (mx ≤ value → normalize_value cfg value param = 1) ∧
        (mn ≤ value → value ≤ mx →
          normalize_value cfg value param = (value - mn) / (mx - mn)) ∧
        0 ≤ normalize_value cfg value param ∧
        normalize_value cfg value param ≤ 1)) ∧
    (mn = mx → normalize_value cfg value param = 0) := by
  have hnv : normalize_value cfg value param =
      if mn < mx then (max mn (min mx value) - mn) / (mx - mn) else 0 := by
    simp [normalize_value, hr]
  constructor
  · intro hlt
    rw [hnv, if_pos hlt]
    refine ⟨rfl, ?_, ?_, ?_, ?_, ?_⟩
    · intro hv
      rw [min_eq_right (le_trans hv (le_of_lt hlt)), max_eq_left hv]
      simp
    · intro hv
      rw [min_eq_left hv, max_eq_right (le_of_lt hlt)]
      exact div_self (ne_of_gt (sub_pos.mpr hlt))
    · intro h1 h2
      rw [min_eq_right h2, max_eq_right h1]
    · apply div_nonneg
      · have hub := le_max_left mn (min mx value)
        linarith
      · linarith
    · rw [div_le_one (sub_pos.mpr hlt)]
      have hub : max mn (min mx value) ≤ mx :=
        max_le (le_of_lt hlt) (min_le_left _ _)
      linarith
  · intro heq
    rw [hnv, if_neg (by rw [heq]; exact lt_irrefl mx)]

/-- Witness for C7: against the configured `rpm` range `[0, 6000]`, the
over-range value `7000` normalizes to exactly `1`. -/
theorem normalize_value_spec_witness :
    normalize_value aiCfgRef 7000 "rpm" = 1 :=
  ((normalize_value_spec aiCfgRef 7000 "rpm" 0 6000 rfl).1
    (by norm_num)).2.2.1 (by norm_num)

/-- C8: the AI status exposed at the public interface is not confined to
the NORMAL/WARNING/CRITICAL enum: before the first inference
`get_latest_result` returns `(0.0, 'UNKNOWN')`, and when preprocessing
raises, `run_inference` returns `(0.0, 'ERROR')` while leaving the stored
latest result unchanged. -/
theorem ai_unknown_and_error_statuses :
    get_latest_result aiInit = (0, "UNKNOWN") ∧
      ∀ (cfg : AIConfig) (st : AIState) (data : String → Option OBDVal)
        (noise : ℚ), preprocess cfg data = Except.error () →
          run_inference cfg st data noise = ((0, "ERROR"), st) := by
  refine ⟨rfl, fun cfg st data noise hp => ?_⟩
  simp [run_inference, hp]

/-- Witness for C8: on the malformed snapshot the engine returns
`(0.0, 'ERROR')` and its state is untouched. -/
theorem ai_unknown_and_error_statuses_witness :
    run_inference aiCfgRef aiInit badSnapshot (1/100) = ((0, "ERROR"), aiInit) :=
  ai_unknown_and_error_statuses.2 aiCfgRef aiInit badSnapshot (1/100) rfl

/-- C10: a channel name missing from the configured normalization ranges
does not fail: `normalize_value` silently substitutes the default range
`[0, 100]` and normalizes against it. -/
theorem normalize_value_default (cfg : AIConfig) (value : ℚ) (param : String)
    (h : cfg.norm_ranges param = none) :
    normalize_value cfg value param = max 0 (min 100 value) / 100 := by
  norm_num [normalize_value, h]

/-- Witness for C10: the unconfigured channel `gas` is normalized against
`[0, 100]`. -/
theorem normalize_value_default_witness :
    normalize_value aiCfgRef 50 "gas" = max 0 (min 100 50) / 100 :=
  normalize_value_default aiCfgRef 50 "gas" rfl

/-- C5 counterexample: with a configuration whose `confirmation_time` is
positive (0.1 s) but does not exceed the window span, a single raw spike
at or above `critical_min` followed immediately by samples below
`warning_min` drives the freshly initialized monitor to CRITICAL (the
moving average keeps the filtered value above `critical_min` after the
spike), refuting the claim for arbitrary configurations with positive
confirmation time. -/
theorem gas_spike_critical_cex :
    0 < gasCfgCex.confirmation_time ∧
      gasCfgCex.critical_min ≤ rawsCex 0 ∧
      (∀ k, 1 ≤ k → rawsCex k < gasCfgCex.warning_min) ∧
      (gstate gasCfgCex gasInit timesCex rawsCex 1).status = "CRITICAL" := by
  refine ⟨by norm_num [gasCfgCex], by norm_num [gasCfgCex, rawsCex], ?_, ?_⟩
  · intro k hk
    have hk0 : k ≠ 0 := by omega
    simp [rawsCex, hk0, gasCfgCex]
  · show (readStep gasCfgCex (readStep gasCfgCex gasInit (timesCex 0)
        (rawsCex 0)) (timesCex 1) (rawsCex 1)).status = "CRITICAL"
    norm_num [readStep, appendReading, takeRight, filteredOf,
      determineStatus, gasCfgCex, gasInit, rawsCex, timesCex,
      List.cons_ne_nil]

/-- C5 (amended): a single-sample spike of any magnitude is debounced
provided the confirmation time exceeds the window span: if the monitor
starts with no critical episode tracked, samples arrive on the fixed
`dt`-cadence of the read loop, every sample after the spike stays below
`warning_min ≤ critical_min`, and
`confirmation_time > (window - 1) · dt` — as in the reference
configuration, where 2.0 s > 0.9 s — then no step ever reports CRITICAL. -/
theorem gas_single_spike_no_critical
    (cfg : GasConfig) (st0 : GasState) (t0 dt : ℚ) (times raws : ℕ → ℚ)
    (hw : 0 < cfg.window)
    (hwc : cfg.warning_min ≤ cfg.critical_min)
    (hcst : st0.critical_start_time = none)
    (hdt : 0 ≤ dt)
    (htimes : ∀ k, times k = t0 + (k : ℚ) * dt)
    (hlow : ∀ k, 1 ≤ k → raws k < cfg.warning_min)
    (hconf : ((cfg.window : ℚ) - 1) * dt < cfg.confirmation_time) :
    ∀ i, (gstate cfg st0 times raws i).status ≠ "CRITICAL" := by
  intro i hcrit
  rw [gstate_eq_readStep, readStep_status, determineStatus_fst_critical]
    at hcrit
  obtain ⟨hc, he⟩ := hcrit
  have hw1 : (1 : ℚ) ≤ (cfg.window : ℚ) := by exact_mod_cast hw
  by_cases hiw : cfg.window ≤ i
  · have h1i : 1 ≤ i := le_trans hw hiw
    have hwin : appendReading cfg (gprev cfg st0 times raws i).readings
        (raws i) =
        takeRight cfg.window (st0.readings ++ (List.range (i + 1)).map raws)
        := by
      rw [← readStep_readings cfg (gprev cfg st0 times raws i) (times i)
        (raws i), ← gstate_eq_readStep, gstate_readings]
    have hsplit : st0.readings ++ (List.range (i + 1)).map raws =
        (st0.readings ++ [raws 0]) ++
          (List.range i).map (fun k => raws (k + 1)) := by
      rw [List.range_succ_eq_map, List.map_cons, List.map_map,
        List.append_assoc]
      rfl
    have hlen : cfg.window ≤
        ((List.range i).map (fun k => raws (k + 1))).length := by
      rw [List.length_map, List.length_range]
      exact hiw
    have hallwin : ∀ x ∈ appendReading cfg
        (gprev cfg st0 times raws i).readings (raws i),
        x < cfg.warning_min := by
      intro x hx
      rw [hwin, hsplit, takeRight_append_left _ _ _ hlen] at hx
      have hx2 : x ∈ (List.range i).map (fun k => raws (k + 1)) :=
        List.drop_subset _ _ hx
      obtain ⟨k, _hk, hkx⟩ := List.mem_map.mp hx2
      rw [← hkx]
      exact hlow (k + 1) (Nat.le_add_left 1 k)
    have hflt := filteredOf_lt _ (raws i) cfg.warning_min (hlow i h1i) hallwin
    linarith
  · push_neg at hiw
    cases hp : (gprev cfg st0 times raws i).critical_start_time with
    | none =>
      rw [hp] at he
      simp only [Option.getD_none, sub_self] at he
      have hpos : 0 ≤ ((cfg.window : ℚ) - 1) * dt :=
        mul_nonneg (by linarith) hdt
      linarith
    | some s =>
      rw [hp] at he
      simp only [Option.getD_some] at he
      have hs0 : t0 ≤ s :=
        gprev_cst_ge cfg st0 t0 dt times raws hcst hdt htimes i s hp
      have hile : (i : ℚ) ≤ (cfg.window : ℚ) - 1 := by
        have hcast : (i : ℚ) + 1 ≤ (cfg.window : ℚ) := by exact_mod_cast hiw
        linarith
      have hmul : (i : ℚ) * dt ≤ ((cfg.window : ℚ) - 1) * dt :=
        mul_le_mul_of_nonneg_right hile hdt
      rw [htimes i] at he
      linarith

/-- Witness for the amended C5: in the reference configuration, fifteen
10 Hz steps after a spike of 100000 the monitor still has not reported
CRITICAL. -/
theorem gas_single_spike_no_critical_witness :
    (gstate gasCfgRef gasInit timesCex rawsSpikeW 15).status ≠ "CRITICAL" :=
  gas_single_spike_no_critical gasCfgRef gasInit 0 (1/10) timesCex rawsSpikeW
    (by norm_num [gasCfgRef]) (by norm_num [gasCfgRef]) rfl (by norm_num)
    (fun k => by simp [timesCex]; ring)
    (fun k hk => by
      have hk0 : k ≠ 0 := by omega
      simp [rawsSpikeW, hk0, gasCfgRef])
    (by norm_num [gasCfgRef]) 15

end VMS
